import Mathlib

/-!
Verification of the MindEase mental-health backend (screening, self-care and
clinician domains) against its natural-language specification.

The Python sources are shallowly embedded: Django model `save` derivations and
service methods become pure Lean functions, the relational store becomes an
explicit record of row lists, timestamps become integers (measured in days),
Python exceptions become an explicit error type, and the trained intent model
is abstracted as an oracle function supplied as a parameter.  Care is taken
to keep every embedded definition structurally parallel to its source so it
can be diffed against the Python line by line.
-/

namespace MindEase

/-! ### Screening models (screening/models.py)

`PHQ9Screening.save` and `GAD7Screening.save` recompute the derived columns
(total score, severity band, risk level and the two boolean flags) from the
raw answers on every write.  The nine (resp. seven) answer columns are kept
with their Python field names. -/

structure PHQ9Fields where
  q1_interest : Int
  q2_depressed : Int
  q3_sleep : Int
  q4_energy : Int
  q5_appetite : Int
  q6_self_esteem : Int
  q7_concentration : Int
  q8_psychomotor : Int
  q9_suicidal : Int
deriving Repr, DecidableEq

structure GAD7Fields where
  q1_nervous : Int
  q2_worry : Int
  q3_worry_control : Int
  q4_trouble_relaxing : Int
  q5_restless : Int
  q6_irritable : Int
  q7_afraid : Int
deriving Repr, DecidableEq

/-- The derived columns written by a screening model's `save`. -/
structure ScreeningDerived where
  total_score : Int
  severity_level : String
  risk_level : String
  requires_immediate_attention : Bool
  requires_teleconsult : Bool
deriving Repr, DecidableEq

/-- Sum of the nine PHQ-9 answers, as computed in `PHQ9Screening.save`. -/
def phq9Total (f : PHQ9Fields) : Int :=
  f.q1_interest + f.q2_depressed + f.q3_sleep +
  f.q4_energy + f.q5_appetite + f.q6_self_esteem +
  f.q7_concentration + f.q8_psychomotor + f.q9_suicidal

/-- Severity band chain of `PHQ9Screening.save` (models.py lines 66-75). -/
def phq9SeverityOfScore (total : Int) : String :=
  if total ≤ 4 then "minimal"
  else if total ≤ 9 then "mild"
  else if total ≤ 14 then "moderate"
  else if total ≤ 19 then "moderately_severe"
  else "severe"

/-- `PHQ9Screening.save` (models.py lines 57-90): recomputes `total_score`,
`severity_level`, then the risk assessment block. -/
def phq9Save (f : PHQ9Fields) : ScreeningDerived :=
  let total := phq9Total f
  let sev := phq9SeverityOfScore total
  if 15 ≤ total ∨ 2 ≤ f.q9_suicidal then
    { total_score := total, severity_level := sev, risk_level := "critical",
      requires_immediate_attention := true, requires_teleconsult := true }
  else if 10 ≤ total then
    { total_score := total, severity_level := sev, risk_level := "high",
      requires_immediate_attention := false, requires_teleconsult := true }
  else if 5 ≤ total then
    { total_score := total, severity_level := sev, risk_level := "medium",
      requires_immediate_attention := false, requires_teleconsult := false }
  else
    { total_score := total, severity_level := sev, risk_level := "low",
      requires_immediate_attention := false, requires_teleconsult := false }

/-- Sum of the seven GAD-7 answers, as computed in `GAD7Screening.save`. -/
def gad7Total (f : GAD7Fields) : Int :=
  f.q1_nervous + f.q2_worry + f.q3_worry_control +
  f.q4_trouble_relaxing + f.q5_restless + f.q6_irritable +
  f.q7_afraid

/-- Severity band chain of `GAD7Screening.save` (models.py lines 139-146). -/
def gad7SeverityOfScore (total : Int) : String :=
  if total ≤ 4 then "minimal"
  else if total ≤ 9 then "mild"
  else if total ≤ 14 then "moderate"
  else "severe"

/-- `GAD7Screening.save` (models.py lines 130-161). -/
def gad7Save (f : GAD7Fields) : ScreeningDerived :=
  let total := gad7Total f
  let sev := gad7SeverityOfScore total
  if 15 ≤ total then
    { total_score := total, severity_level := sev, risk_level := "critical",
      requires_immediate_attention := true, requires_teleconsult := true }
  else if 10 ≤ total then
    { total_score := total, severity_level := sev, risk_level := "high",
      requires_immediate_attention := false, requires_teleconsult := true }
  else if 5 ≤ total then
    { total_score := total, severity_level := sev, risk_level := "medium",
      requires_immediate_attention := false, requires_teleconsult := false }
  else
    { total_score := total, severity_level := sev, risk_level := "low",
      requires_immediate_attention := false, requires_teleconsult := false }

/-! ### TriageService scoring (screening/triage_service.py)

`calculate_phq9` / `calculate_gad7` validate the raw answer vector and return
total score, severity code and human-readable label.  Validation failures are
Python `ValueError`s, embedded as `Except.error` carrying the exact message. -/

structure CalcResult where
  total_score : Int
  severity_level : String
  severity_label : String
deriving Repr, DecidableEq

/-- The per-answer validation loop of `calculate_phq9` / `calculate_gad7`:
returns the error message for the first answer outside `[0, 3]`, if any.
(`isinstance(answer, int)` is always true in this embedding, where answers
are integers by type.) -/
def findInvalidAnswer (name : String) : List Int → Nat → Option String
  | [], _ => none
  | a :: rest, i =>
      if a < 0 ∨ 3 < a then
        some (name ++ " answer " ++ toString (i + 1) ++ " must be between 0 and 3")
      else
        findInvalidAnswer name rest (i + 1)

/-- `TriageService._get_phq9_severity` (triage_service.py lines 174-185). -/
def get_phq9_severity (score : Int) : String :=
  if score ≤ 4 then "minimal"
  else if score ≤ 9 then "mild"
  else if score ≤ 14 then "moderate"
  else if score ≤ 19 then "moderately_severe"
  else "severe"

/-- `TriageService._get_gad7_severity` (triage_service.py lines 187-196). -/
def get_gad7_severity (score : Int) : String :=
  if score ≤ 4 then "minimal"
  else if score ≤ 9 then "mild"
  else if score ≤ 14 then "moderate"
  else "severe"

/-- `TriageService._get_severity_label`: dictionary lookup with default
`"Unknown"`; the `survey_type` argument is accepted but unused, as in the
source. -/
def get_severity_label (severity_level : String) (survey_type : String) : String :=
  if severity_level == "minimal" then "Minimal"
  else if severity_level == "mild" then "Mild"
  else if severity_level == "moderate" then "Moderate"
  else if severity_level == "moderately_severe" then "Moderately Severe"
  else if severity_level == "severe" then "Severe"
  else "Unknown"

/-- `TriageService.calculate_phq9` (triage_service.py lines 39-71). -/
def calculate_phq9 (answers : List Int) : Except String CalcResult :=
  if answers.isEmpty ∨ answers.length ≠ 9 then
    .error "PHQ-9 requires exactly 9 answers (0-3 each)"
  else
    match findInvalidAnswer "PHQ-9" answers 0 with
    | some msg => .error msg
    | none =>
        let total_score := answers.sum
        let severity_level := get_phq9_severity total_score
        .ok { total_score := total_score, severity_level := severity_level,
              severity_label := get_severity_label severity_level "phq9" }

/-- `TriageService.calculate_gad7` (triage_service.py lines 73-105). -/
def calculate_gad7 (answers : List Int) : Except String CalcResult :=
  if answers.isEmpty ∨ answers.length ≠ 7 then
    .error "GAD-7 requires exactly 7 answers (0-3 each)"
  else
    match findInvalidAnswer "GAD-7" answers 0 with
    | some msg => .error msg
    | none =>
        let total_score := answers.sum
        let severity_level := get_gad7_severity total_score
        .ok { total_score := total_score, severity_level := severity_level,
              severity_label := get_severity_label severity_level "gad7" }

/-- Field assignment performed by `SurveySubmissionViewSet.submit_phq9` when it
creates the `PHQ9Screening` row: `answers[0]` becomes `q1_interest`, ...,
`answers[8]` becomes `q9_suicidal` (survey_views.py lines 68-79). -/
def phq9FieldsOfAnswers (answers : List Int) : PHQ9Fields :=
  { q1_interest := answers.getD 0 0, q2_depressed := answers.getD 1 0,
    q3_sleep := answers.getD 2 0, q4_energy := answers.getD 3 0,
    q5_appetite := answers.getD 4 0, q6_self_esteem := answers.getD 5 0,
    q7_concentration := answers.getD 6 0, q8_psychomotor := answers.getD 7 0,
    q9_suicidal := answers.getD 8 0 }

/-- Field assignment performed by `SurveySubmissionViewSet.submit_gad7`
(survey_views.py lines 149-158). -/
def gad7FieldsOfAnswers (answers : List Int) : GAD7Fields :=
  { q1_nervous := answers.getD 0 0, q2_worry := answers.getD 1 0,
    q3_worry_control := answers.getD 2 0, q4_trouble_relaxing := answers.getD 3 0,
    q5_restless := answers.getD 4 0, q6_irritable := answers.getD 5 0,
    q7_afraid := answers.getD 6 0 }

/-! Helper lemmas about the scoring functions. -/

theorem phq9Save_total (f : PHQ9Fields) : (phq9Save f).total_score = phq9Total f := by
  simp only [phq9Save]
  split_ifs <;> rfl

theorem phq9Save_severity (f : PHQ9Fields) :
    (phq9Save f).severity_level = phq9SeverityOfScore (phq9Total f) := by
  simp only [phq9Save]
  split_ifs <;> rfl

theorem gad7Save_total (f : GAD7Fields) : (gad7Save f).total_score = gad7Total f := by
  simp only [gad7Save]
  split_ifs <;> rfl

theorem gad7Save_severity (f : GAD7Fields) :
    (gad7Save f).severity_level = gad7SeverityOfScore (gad7Total f) := by
  simp only [gad7Save]
  split_ifs <;> rfl

theorem findInvalidAnswer_none (name : String) (l : List Int) (i : Nat)
    (h : ∀ a ∈ l, 0 ≤ a ∧ a ≤ 3) : findInvalidAnswer name l i = none := by
  induction l generalizing i with
  | nil => rfl
  | cons a rest ih =>
      have ha := h a (List.mem_cons_self a rest)
      rw [findInvalidAnswer, if_neg (by omega)]
      exact ih (i + 1) fun x hx => h x (List.mem_cons_of_mem a hx)

theorem findInvalidAnswer_isSome (name : String) (l : List Int) (i : Nat)
    (h : ∃ a ∈ l, a < 0 ∨ 3 < a) : (findInvalidAnswer name l i).isSome := by
  induction l generalizing i with
  | nil => simp at h
  | cons a rest ih =>
      rw [findInvalidAnswer]
      split_ifs with hc
      · rfl
      · rcases h with ⟨x, hx, hxr⟩
        rcases List.mem_cons.mp hx with rfl | hx'
        · omega
        · exact ih (i + 1) ⟨x, hx', hxr⟩

theorem calculate_phq9_ok (l : List Int) (h9 : l.length = 9)
    (hr : ∀ a ∈ l, 0 ≤ a ∧ a ≤ 3) :
    calculate_phq9 l =
      .ok { total_score := l.sum, severity_level := get_phq9_severity l.sum,
            severity_label := get_severity_label (get_phq9_severity l.sum) "phq9" } := by
  have hne : ¬(l.isEmpty ∨ l.length ≠ 9) := by
    rcases l with _ | _
    · simp at h9
    · simp [h9]
  rw [calculate_phq9, if_neg hne, findInvalidAnswer_none _ _ _ hr]

theorem calculate_gad7_ok (l : List Int) (h7 : l.length = 7)
    (hr : ∀ a ∈ l, 0 ≤ a ∧ a ≤ 3) :
    calculate_gad7 l =
      .ok { total_score := l.sum, severity_level := get_gad7_severity l.sum,
            severity_label := get_severity_label (get_gad7_severity l.sum) "gad7" } := by
  have hne : ¬(l.isEmpty ∨ l.length ≠ 7) := by
    rcases l with _ | _
    · simp at h7
    · simp [h7]
  rw [calculate_gad7, if_neg hne, findInvalidAnswer_none _ _ _ hr]

/-- C1: for in-range PHQ-9 answers the saved record's derived columns follow
the spec's scoring table: the total is the sum of the nine answers, severity
follows the fixed bands, and risk level plus the two boolean flags follow the
critical/high/medium/low rule keyed on the total and on `q9`. -/
theorem C1_phq9_save_scoring (f : PHQ9Fields)
    (hq : 0 ≤ f.q1_interest ∧ f.q1_interest ≤ 3 ∧
          0 ≤ f.q2_depressed ∧ f.q2_depressed ≤ 3 ∧
          0 ≤ f.q3_sleep ∧ f.q3_sleep ≤ 3 ∧
          0 ≤ f.q4_energy ∧ f.q4_energy ≤ 3 ∧
          0 ≤ f.q5_appetite ∧ f.q5_appetite ≤ 3 ∧
          0 ≤ f.q6_self_esteem ∧ f.q6_self_esteem ≤ 3 ∧
          0 ≤ f.q7_concentration ∧ f.q7_concentration ≤ 3 ∧
          0 ≤ f.q8_psychomotor ∧ f.q8_psychomotor ≤ 3 ∧
          0 ≤ f.q9_suicidal ∧ f.q9_suicidal ≤ 3) :
    (phq9Save f).total_score =
        f.q1_interest + f.q2_depressed + f.q3_sleep + f.q4_energy + f.q5_appetite +
        f.q6_self_esteem + f.q7_concentration + f.q8_psychomotor + f.q9_suicidal ∧
    ((phq9Save f).total_score ≤ 4 → (phq9Save f).severity_level = "minimal") ∧
    (5 ≤ (phq9Save f).total_score → (phq9Save f).total_score ≤ 9 →
        (phq9Save f).severity_level = "mild") ∧
    (10 ≤ (phq9Save f).total_score → (phq9Save f).total_score ≤ 14 →
        (phq9Save f).severity_level = "moderate") ∧
    (15 ≤ (phq9Save f).total_score → (phq9Save f).total_score ≤ 19 →
        (phq9Save f).severity_level = "moderately_severe") ∧
    (20 ≤ (phq9Save f).total_score → (phq9Save f).severity_level = "severe") ∧
    (((phq9Save f).risk_level = "critical" ∧
      (phq9Save f).requires_immediate_attention = true ∧
      (phq9Save f).requires_teleconsult = true) ↔
        (15 ≤ (phq9Save f).total_score ∨ 2 ≤ f.q9_suicidal)) ∧
    ((phq9Save f).total_score < 15 → f.q9_suicidal < 2 →
      (((phq9Save f).risk_level = "high" ∧ (phq9Save f).requires_teleconsult = true) ↔
        10 ≤ (phq9Save f).total_score)) ∧
    ((phq9Save f).total_score < 15 → f.q9_suicidal < 2 → (phq9Save f).total_score < 10 →
      ((phq9Save f).risk_level = "medium" ↔ 5 ≤ (phq9Save f).total_score)) ∧
    ((phq9Save f).total_score < 15 → f.q9_suicidal < 2 → (phq9Save f).total_score < 10 →
      (phq9Save f).total_score < 5 → (phq9Save f).risk_level = "low") := by
  clear hq
  simp only [phq9Save, phq9SeverityOfScore, phq9Total]
  split_ifs <;> simp_all <;> omega

/-- C1 witness: concrete evaluation at the spec's worked example
`[0,1,2,1,0,2,1,0,1]` (total 8). -/
theorem C1_phq9_save_scoring_witness :
    (phq9Save ⟨0, 1, 2, 1, 0, 2, 1, 0, 1⟩).total_score = 0 + 1 + 2 + 1 + 0 + 2 + 1 + 0 + 1 :=
  (C1_phq9_save_scoring ⟨0, 1, 2, 1, 0, 2, 1, 0, 1⟩ (by decide)).1

/-- C3: the Rule Engine's standalone scoring (`TriageService.calculate_phq9` /
`calculate_gad7`) agrees with the screening models' `save` derivation on both
total score and severity band, for every well-formed answer vector. -/
theorem C3_calculate_agrees_with_save :
    (∀ l : List Int, l.length = 9 → (∀ a ∈ l, 0 ≤ a ∧ a ≤ 3) →
      ∃ r, calculate_phq9 l = .ok r ∧
        r.total_score = (phq9Save (phq9FieldsOfAnswers l)).total_score ∧
        r.severity_level = (phq9Save (phq9FieldsOfAnswers l)).severity_level) ∧
    (∀ l : List Int, l.length = 7 → (∀ a ∈ l, 0 ≤ a ∧ a ≤ 3) →
      ∃ r, calculate_gad7 l = .ok r ∧
        r.total_score = (gad7Save (gad7FieldsOfAnswers l)).total_score ∧
        r.severity_level = (gad7Save (gad7FieldsOfAnswers l)).severity_level) := by
  constructor
  · intro l h9 hr
    rcases l with _ | ⟨a1, _ | ⟨a2, _ | ⟨a3, _ | ⟨a4, _ | ⟨a5, _ | ⟨a6, _ | ⟨a7,
        _ | ⟨a8, _ | ⟨a9, _ | ⟨a10, rest⟩⟩⟩⟩⟩⟩⟩⟩⟩⟩ <;>
      simp only [List.length_cons, List.length_nil] at h9 <;> try omega
    have hsum : List.sum [a1, a2, a3, a4, a5, a6, a7, a8, a9] =
        phq9Total (phq9FieldsOfAnswers [a1, a2, a3, a4, a5, a6, a7, a8, a9]) := by
      simp [phq9Total, phq9FieldsOfAnswers]
      ring
    refine ⟨_, calculate_phq9_ok _ (by simp) hr, ?_, ?_⟩
    · rw [phq9Save_total, ← hsum]
    · rw [phq9Save_severity, ← hsum]
      rfl
  · intro l h7 hr
    rcases l with _ | ⟨a1, _ | ⟨a2, _ | ⟨a3, _ | ⟨a4, _ | ⟨a5, _ | ⟨a6, _ | ⟨a7,
        _ | ⟨a8, rest⟩⟩⟩⟩⟩⟩⟩⟩ <;>
      simp only [List.length_cons, List.length_nil] at h7 <;> try omega
    have hsum : List.sum [a1, a2, a3, a4, a5, a6, a7] =
        gad7Total (gad7FieldsOfAnswers [a1, a2, a3, a4, a5, a6, a7]) := by
      simp [gad7Total, gad7FieldsOfAnswers]
      ring
    refine ⟨_, calculate_gad7_ok _ (by simp) hr, ?_, ?_⟩
    · rw [gad7Save_total, ← hsum]
    · rw [gad7Save_severity, ← hsum]
      rfl

/-- C3 witness: the two scoring paths agree on the concrete vectors
`[0,1,2,1,0,2,1,0,1]` (PHQ-9) as asserted by the theorem. -/
theorem C3_calculate_agrees_with_save_witness :
    ∃ r, calculate_phq9 [0, 1, 2, 1, 0, 2, 1, 0, 1] = .ok r ∧
      r.total_score = (phq9Save (phq9FieldsOfAnswers [0, 1, 2, 1, 0, 2, 1, 0, 1])).total_score ∧
      r.severity_level =
        (phq9Save (phq9FieldsOfAnswers [0, 1, 2, 1, 0, 2, 1, 0, 1])).severity_level :=
  C3_calculate_agrees_with_save.1 [0, 1, 2, 1, 0, 2, 1, 0, 1] (by decide) (by decide)

/-! ### The relational store

Rows of the Django models that the triage rules read and write.  Timestamps
(`created_at`, `now`) are integers measured in days, so the source's
`timezone.now() - timedelta(days=14)` becomes `now - 14`.  Primary keys are
auto-incremented integers, mirroring Django's default `id` column. -/

structure PatientRow where
  id : Nat
  user_id : Nat
  firebase_uid : String
deriving Repr, DecidableEq

structure ScreeningRow where
  id : Nat
  patient : Nat
  total_score : Int
  created_at : Int
deriving Repr, DecidableEq

structure AlertRow where
  id : Nat
  patient : Nat
  alert_type : String
  message : String
deriving Repr, DecidableEq

structure ReferralRow where
  patient : Nat
  reason : String
  priority : String
  status : String
deriving Repr, DecidableEq

/-- The slice of the relational store touched by the screening domain.
`notifications` records the priorities of queued `send_alert_notification`
tasks. -/
structure Store where
  patients : List PatientRow
  phq9_screenings : List ScreeningRow
  gad7_screenings : List ScreeningRow
  alerts : List AlertRow
  referrals : List ReferralRow
  notifications : List String
deriving Repr, DecidableEq

/-- Python exceptions distinguished by the survey views' handlers. -/
inductive PyError where
  | valueError (msg : String)
  | exception (msg : String)
deriving Repr, DecidableEq

/-- HTTP status assigned by `submit_phq9` / `submit_gad7`'s `except` clauses
(survey_views.py lines 108-117): `ValueError` becomes 400, anything else 500. -/
def survey_exception_http_status : PyError → Nat
  | .valueError _ => 400
  | .exception _ => 500

/-- Python `str.upper()` for the ASCII strings used by the alert messages. -/
def upperStr (s : String) : String := ⟨s.data.map Char.toUpper⟩

/-- `.order_by('-created_at').first()` on a list of screening rows: the row
with the greatest `created_at` (first such row on ties). -/
def orderByCreatedAtDescFirst (rows : List ScreeningRow) : Option ScreeningRow :=
  match rows with
  | [] => none
  | r :: rs => some (rs.foldl (fun best x => if best.created_at < x.created_at then x else best) r)

/-! ### TriageService rules (triage_service.py lines 107-279) -/

structure TriageResult where
  triageAction : String
  recommendedModule : Option String
  alertCreated : Bool
  referralCreated : Bool
deriving Repr, DecidableEq

/-- `TriageService._check_score_increase` (triage_service.py lines 209-236).
The lookup filters the patient's screenings created within the last 14 days
and takes the most recent one; note that it does **not** exclude the screening
just created for the current submission. -/
def check_score_increase (st : Store) (now : Int) (patient : Nat)
    (survey_type : String) (current_score : Int) : Option Int :=
  let two_weeks_ago := now - 14
  if survey_type == "phq9" then
    match orderByCreatedAtDescFirst (st.phq9_screenings.filter
        (fun r => r.patient == patient && decide (two_weeks_ago ≤ r.created_at))) with
    | some previous_screening =>
        let score_increase := current_score - previous_screening.total_score
        if 5 ≤ score_increase then some score_increase else none
    | none => none
  else if survey_type == "gad7" then
    match orderByCreatedAtDescFirst (st.gad7_screenings.filter
        (fun r => r.patient == patient && decide (two_weeks_ago ≤ r.created_at))) with
    | some previous_screening =>
        let score_increase := current_score - previous_screening.total_score
        if 5 ≤ score_increase then some score_increase else none
    | none => none
  else none

/-- `TriageService._create_clinician_alert` (lines 238-246): inserts a
`score_increase` alert and queues a high-priority notification. -/
def create_clinician_alert (st : Store) (patient : Nat) (survey_type : String)
    (score_increase : Int) : Store :=
  { st with
    alerts := st.alerts ++
      [{ id := (st.alerts.map (fun al => al.id)).foldl max 0 + 1,
         patient := patient, alert_type := "score_increase",
         message := "Significant " ++ upperStr survey_type ++ " score increase of " ++
           toString score_increase ++ " points within 2 weeks. Patient requires clinician review." }],
    notifications := st.notifications ++ ["high"] }

/-- `TriageService._create_teleconsult_referral` (lines 248-256). -/
def create_teleconsult_referral (st : Store) (patient : Nat) (score : Int)
    (reason : String) : Store :=
  { st with
    referrals := st.referrals ++
      [{ patient := patient, reason := reason,
         priority := if 15 ≤ score then "high" else "medium", status := "pending" }] }

/-- `TriageService._get_self_care_recommendation` (lines 258-279); the `score`
argument is accepted but unused, as in the source. -/
def get_self_care_recommendation (survey_type : String) (score : Int)
    (severity_level : String) : String :=
  if severity_level == "minimal" || severity_level == "mild" then
    if survey_type == "gad7" then "4-7-8 Breathing" else "Mindfulness Meditation"
  else if severity_level == "moderate" then
    if survey_type == "gad7" then "Progressive Muscle Relaxation" else "Journaling and Gratitude"
  else
    "Guided Relaxation Exercises"

/-- `TriageService.process_triage` (triage_service.py lines 107-172).  An
unknown `patient_id` raises `ValueError` (the `Patient.DoesNotExist` handler
re-raises it with the message below).  Rule 2's truthiness test
`if score_increase and score_increase >= 5` is kept as the `5 ≤` guard on the
value returned by `check_score_increase`. -/
def process_triage (st : Store) (now : Int) (patient_id : Nat) (survey_type : String)
    (score : Int) (severity_level : String) : Except PyError (TriageResult × Store) :=
  match st.patients.find? (fun p => p.id == patient_id) with
  | none => .error (.valueError ("Patient with ID " ++ toString patient_id ++ " not found"))
  | some patient =>
      let r1 :=
        if survey_type == "phq9" && decide (15 ≤ score) then
          (create_teleconsult_referral st patient.id score
            ("PHQ-9 score of " ++ toString score ++ " indicates " ++ severity_level ++ " depression"),
           "TriggerReferral", true)
        else if survey_type == "gad7" && decide (15 ≤ score) then
          (create_teleconsult_referral st patient.id score
            ("GAD-7 score of " ++ toString score ++ " indicates " ++ severity_level ++ " anxiety"),
           "TriggerReferral", true)
        else (st, "None", false)
      let r2 :=
        if survey_type == "phq9" then
          match check_score_increase r1.1 now patient.id survey_type score with
          | some score_increase =>
              if 5 ≤ score_increase then
                (create_clinician_alert r1.1 patient.id survey_type score_increase,
                 if r1.2.1 == "None" then "TriggerClinicianAlert" else r1.2.1, true)
              else (r1.1, r1.2.1, false)
          | none => (r1.1, r1.2.1, false)
        else (r1.1, r1.2.1, false)
      let r3 :=
        if r2.2.1 == "None" then
          let recommended_module := get_self_care_recommendation survey_type score severity_level
          if recommended_module != "" then ("RecommendSelfCare", some recommended_module)
          else (r2.2.1, none)
        else (r2.2.1, none)
      .ok ({ triageAction := r3.1, recommendedModule := r3.2,
             alertCreated := r2.2.2, referralCreated := r1.2.2 }, r2.1)

/-! ### C5: the PHQ-9 trend-alert scenario

Two PHQ-9 screenings for patient 1 within 14 days: score 8 on day 0 and
score 14 on day 10.  The survey-submission flow saves the second screening
*before* calling `process_triage`, so the store below already contains it. -/

def C5_store : Store :=
  { patients := [{ id := 1, user_id := 1, firebase_uid := "uid-1" }],
    phq9_screenings :=
      [{ id := 1, patient := 1, total_score := 8, created_at := 0 },
       { id := 2, patient := 1, total_score := 14, created_at := 10 }],
    gad7_screenings := [], alerts := [], referrals := [], notifications := [] }

/-- C5: with the just-saved screening in the store, `_check_score_increase`
compares the current score against that same screening (Δ = 14 − 14 = 0), so
`process_triage` returns `RecommendSelfCare` and creates no `score_increase`
alert — contradicting the claimed `TriggerClinicianAlert`.  Had the lookup
excluded the current screening (as the Legacy Engine's does), the increase
would be 6 and the alert would fire, which is what the rule's own docstring
describes. -/
theorem C5_trend_alert_self_comparison :
    process_triage C5_store 10 1 "phq9" 14 "moderate" =
      .ok ({ triageAction := "RecommendSelfCare",
             recommendedModule := some "Journaling and Gratitude",
             alertCreated := false, referralCreated := false }, C5_store) ∧
    check_score_increase C5_store 10 1 "phq9" 14 = none ∧
    check_score_increase
      { C5_store with phq9_screenings := [{ id := 1, patient := 1, total_score := 8, created_at := 0 }] }
      10 1 "phq9" 14 = some 6 :=
  ⟨rfl, rfl, rfl⟩

/-- C7 (amended): for a `patient_id` matching no `Patient` row,
`process_triage` fails with `ValueError("Patient with ID <id> not found")`,
which the survey endpoints' exception mapping surfaces as HTTP 400, for any
survey type, score and severity. -/
theorem C7_process_triage_unknown_patient (st : Store) (now : Int) (patient_id : Nat)
    (survey_type : String) (score : Int) (severity_level : String)
    (h : ∀ p ∈ st.patients, p.id ≠ patient_id) :
    process_triage st now patient_id survey_type score severity_level =
      .error (.valueError ("Patient with ID " ++ toString patient_id ++ " not found")) ∧
    survey_exception_http_status
      (.valueError ("Patient with ID " ++ toString patient_id ++ " not found")) = 400 := by
  have hf : st.patients.find? (fun p => p.id == patient_id) = none := by
    rw [List.find?_eq_none]
    intro p hp
    simpa using h p hp
  rw [process_triage, hf]
  exact ⟨rfl, rfl⟩

/-- C7 witness: concrete unknown patient id 3 on an empty store. -/
theorem C7_process_triage_unknown_patient_witness :
    process_triage
        { patients := [], phq9_screenings := [], gad7_screenings := [],
          alerts := [], referrals := [], notifications := [] } 0 3 "gad7" 5 "mild" =
      .error (.valueError ("Patient with ID " ++ toString (3 : Nat) ++ " not found")) ∧
    survey_exception_http_status
      (.valueError ("Patient with ID " ++ toString (3 : Nat) ++ " not found")) = 400 :=
  C7_process_triage_unknown_patient
    { patients := [], phq9_screenings := [], gad7_screenings := [],
      alerts := [], referrals := [], notifications := [] } 0 3 "gad7" 5 "mild" (by decide)

/-- C7 counterexample: the claim says the failure is surfaced as HTTP 404; in
the code it is a `ValueError`, which the survey views' exception mapping turns
into HTTP 400. -/
theorem C7_counterexample :
    process_triage
        { patients := [], phq9_screenings := [], gad7_screenings := [],
          alerts := [], referrals := [], notifications := [] } 0 7 "phq9" 16 "moderately_severe" =
      .error (.valueError "Patient with ID 7 not found") ∧
    survey_exception_http_status (.valueError "Patient with ID 7 not found") = 400 ∧
    survey_exception_http_status (.valueError "Patient with ID 7 not found") ≠ 404 :=
  ⟨rfl, rfl, by decide⟩

/-! ### Survey submission endpoints (screening/survey_views.py)

`submit_phq9` / `submit_gad7` validate the raw answers, resolve or create the
caller's `Patient`, persist the screening and run the Rule Engine.  The
authenticated account always exists before these endpoints run (they are
`IsAuthenticated`), so the store's `patients` table is the only identity state
they can mutate. -/

inductive SubmitResponse where
  | badRequest (error : String)
  | created (totalScore : Int) (severityLevel : String) (severityCode : String)
      (triageAction : String) (recommendedModule : Option String)
      (screeningId : Nat) (message : String)
  | serverError (error : String)
deriving Repr, DecidableEq

/-- HTTP status of each survey-submission response shape. -/
def submit_http_status : SubmitResponse → Nat
  | .badRequest _ => 400
  | .created _ _ _ _ _ _ _ => 201
  | .serverError _ => 500

/-- `SurveySubmissionViewSet._get_or_create_patient` (survey_views.py lines
25-36): look the patient up by the authenticated user, creating it with
`firebase_uid or request.user.username` as UID if absent. -/
def get_or_create_patient (st : Store) (user_id : Nat) (username : String)
    (firebase_uid : String) : PatientRow × Store :=
  match st.patients.find? (fun p => p.user_id == user_id) with
  | some patient => (patient, st)
  | none =>
      let new_id := (st.patients.map (fun p => p.id)).foldl max 0 + 1
      let patient : PatientRow :=
        { id := new_id, user_id := user_id,
          firebase_uid := if firebase_uid != "" then firebase_uid else username }
      (patient, { st with patients := st.patients ++ [patient] })

/-- `SurveySubmissionViewSet._get_action_message` (survey_views.py lines
198-206); a `None` recommended module is rendered as Python renders `None`
inside an f-string. -/
def get_action_message (triage_action : String) (severity_label : String)
    (recommended_module : Option String) : String :=
  if triage_action == "TriggerReferral" then
    "Your " ++ severity_label ++
      " symptoms indicate you may benefit from professional support. A teleconsultation referral has been created."
  else if triage_action == "TriggerClinicianAlert" then
    "Your symptoms have changed significantly. A clinician will review your case."
  else if triage_action == "RecommendSelfCare" then
    "Based on your assessment, we recommend trying: " ++
      (match recommended_module with | some m => m | none => "None") ++
      ". This can help manage your symptoms."
  else if triage_action == "None" then
    "Thank you for completing the assessment. Continue monitoring your symptoms."
  else
    "Assessment completed successfully."

/-- `SurveySubmissionViewSet.submit_phq9` (survey_views.py lines 38-117).
`request.data.get('answers', [])` is the `Option`-defaulting, the empty check
is `if not answers`, scoring runs before any store mutation, and the
`except ValueError` / `except Exception` clauses map errors to 400 / 500. -/
def submit_phq9 (st : Store) (now : Int) (user_id : Nat) (username : String)
    (answers? : Option (List Int)) (firebase_uid : String) : SubmitResponse × Store :=
  let answers := answers?.getD []
  if answers.isEmpty then (.badRequest "Answers array is required", st)
  else
    match calculate_phq9 answers with
    | .error msg => (.badRequest msg, st)
    | .ok score_result =>
        let pr := get_or_create_patient st user_id username firebase_uid
        let derived := phq9Save (phq9FieldsOfAnswers answers)
        let screening_id := (pr.2.phq9_screenings.map (fun s => s.id)).foldl max 0 + 1
        let st2 := { pr.2 with phq9_screenings := pr.2.phq9_screenings ++
            [{ id := screening_id, patient := pr.1.id,
               total_score := derived.total_score, created_at := now }] }
        match process_triage st2 now pr.1.id "phq9"
            score_result.total_score score_result.severity_level with
        | .error (.valueError msg) => (.badRequest msg, st2)
        | .error (.exception msg) => (.serverError ("An error occurred: " ++ msg), st2)
        | .ok tr =>
            (.created score_result.total_score score_result.severity_label
               score_result.severity_level tr.1.triageAction tr.1.recommendedModule
               screening_id
               (get_action_message tr.1.triageAction score_result.severity_label
                 tr.1.recommendedModule),
             tr.2)

/-- `SurveySubmissionViewSet.submit_gad7` (survey_views.py lines 119-196). -/
def submit_gad7 (st : Store) (now : Int) (user_id : Nat) (username : String)
    (answers? : Option (List Int)) (firebase_uid : String) : SubmitResponse × Store :=
  let answers := answers?.getD []
  if answers.isEmpty then (.badRequest "Answers array is required", st)
  else
    match calculate_gad7 answers with
    | .error msg => (.badRequest msg, st)
    | .ok score_result =>
        let pr := get_or_create_patient st user_id username firebase_uid
        let derived := gad7Save (gad7FieldsOfAnswers answers)
        let screening_id := (pr.2.gad7_screenings.map (fun s => s.id)).foldl max 0 + 1
        let st2 := { pr.2 with gad7_screenings := pr.2.gad7_screenings ++
            [{ id := screening_id, patient := pr.1.id,
               total_score := derived.total_score, created_at := now }] }
        match process_triage st2 now pr.1.id "gad7"
            score_result.total_score score_result.severity_level with
        | .error (.valueError msg) => (.badRequest msg, st2)
        | .error (.exception msg) => (.serverError ("An error occurred: " ++ msg), st2)
        | .ok tr =>
            (.created score_result.total_score score_result.severity_label
               score_result.severity_level tr.1.triageAction tr.1.recommendedModule
               screening_id
               (get_action_message tr.1.triageAction score_result.severity_label
                 tr.1.recommendedModule),
             tr.2)

theorem calculate_phq9_error (l : List Int)
    (h : l.length ≠ 9 ∨ ∃ a ∈ l, a < 0 ∨ 3 < a) :
    ∃ msg, calculate_phq9 l = .error msg := by
  rw [calculate_phq9]
  by_cases hlen : l.isEmpty ∨ l.length ≠ 9
  · rw [if_pos hlen]
    exact ⟨_, rfl⟩
  · rw [if_neg hlen]
    push_neg at hlen
    rcases h with h | h
    · exact absurd hlen.2 h
    · rcases Option.isSome_iff_exists.mp (findInvalidAnswer_isSome "PHQ-9" l 0 h) with ⟨msg, hmsg⟩
      rw [hmsg]
      exact ⟨msg, rfl⟩

theorem calculate_gad7_error (l : List Int)
    (h : l.length ≠ 7 ∨ ∃ a ∈ l, a < 0 ∨ 3 < a) :
    ∃ msg, calculate_gad7 l = .error msg := by
  rw [calculate_gad7]
  by_cases hlen : l.isEmpty ∨ l.length ≠ 7
  · rw [if_pos hlen]
    exact ⟨_, rfl⟩
  · rw [if_neg hlen]
    push_neg at hlen
    rcases h with h | h
    · exact absurd hlen.2 h
    · rcases Option.isSome_iff_exists.mp (findInvalidAnswer_isSome "GAD-7" l 0 h) with ⟨msg, hmsg⟩
      rw [hmsg]
      exact ⟨msg, rfl⟩

/-- C10: an answers payload that fails validation (missing, empty, wrong
length, or containing an entry outside `[0, 3]`) makes the submission
endpoints return HTTP 400 and leaves the whole store untouched — no patient
row, no screening row, no alert, referral or notification. -/
theorem C10_invalid_submission_is_pure (st : Store) (now : Int) (user_id : Nat)
    (username : String) (answers? : Option (List Int)) (firebase_uid : String) :
    ((answers? = none ∨ ∃ l, answers? = some l ∧
        (l = [] ∨ l.length ≠ 9 ∨ ∃ a ∈ l, a < 0 ∨ 3 < a)) →
      ∃ msg, submit_phq9 st now user_id username answers? firebase_uid =
        (.badRequest msg, st) ∧ submit_http_status (.badRequest msg) = 400) ∧
    ((answers? = none ∨ ∃ l, answers? = some l ∧
        (l = [] ∨ l.length ≠ 7 ∨ ∃ a ∈ l, a < 0 ∨ 3 < a)) →
      ∃ msg, submit_gad7 st now user_id username answers? firebase_uid =
        (.badRequest msg, st) ∧ submit_http_status (.badRequest msg) = 400) := by
  constructor
  · intro h9
    rcases h9 with rfl | ⟨l, rfl, hl⟩
    · exact ⟨"Answers array is required", rfl, rfl⟩
    · rcases hl with rfl | hl
      · exact ⟨"Answers array is required", rfl, rfl⟩
      · rcases eq_or_ne l [] with rfl | hne
        · exact ⟨"Answers array is required", rfl, rfl⟩
        · rcases calculate_phq9_error l hl with ⟨msg, hmsg⟩
          refine ⟨msg, ?_, rfl⟩
          rw [submit_phq9]
          simp only [Option.getD_some]
          rw [if_neg (by simpa using hne), hmsg]
  · intro h7
    rcases h7 with rfl | ⟨l, rfl, hl⟩
    · exact ⟨"Answers array is required", rfl, rfl⟩
    · rcases hl with rfl | hl
      · exact ⟨"Answers array is required", rfl, rfl⟩
      · rcases eq_or_ne l [] with rfl | hne
        · exact ⟨"Answers array is required", rfl, rfl⟩
        · rcases calculate_gad7_error l hl with ⟨msg, hmsg⟩
          refine ⟨msg, ?_, rfl⟩
          rw [submit_gad7]
          simp only [Option.getD_some]
          rw [if_neg (by simpa using hne), hmsg]

/-- C10 witness: a well-formed GAD-7 vector (seven in-range entries) sent to
`submit_phq9` fails the length check, and a well-formed PHQ-9 vector (nine
in-range entries) sent to `submit_gad7` likewise; each endpoint returns 400
and leaves the C5 scenario store unchanged. -/
theorem C10_invalid_submission_is_pure_witness :
    (∃ msg, submit_phq9 C5_store 11 1 "alice" (some [0, 1, 2, 1, 0, 2, 1]) "" =
        (.badRequest msg, C5_store) ∧ submit_http_status (.badRequest msg) = 400) ∧
    (∃ msg, submit_gad7 C5_store 11 1 "alice" (some [0, 1, 2, 1, 0, 2, 1, 0, 1]) "" =
        (.badRequest msg, C5_store) ∧ submit_http_status (.badRequest msg) = 400) :=
  ⟨(C10_invalid_submission_is_pure C5_store 11 1 "alice" (some [0, 1, 2, 1, 0, 2, 1]) "").1
      (Or.inr ⟨_, rfl, Or.inr (Or.inl (by decide))⟩),
   (C10_invalid_submission_is_pure C5_store 11 1 "alice" (some [0, 1, 2, 1, 0, 2, 1, 0, 1]) "").2
      (Or.inr ⟨_, rfl, Or.inr (Or.inl (by decide))⟩)⟩

/-! ### The `latest` endpoints (screening/views.py lines 129-135 and 167-173)

`PHQ9Screening.objects.filter(patient=patient).first()`: neither screening
model declares a `Meta.ordering`, and Django's `QuerySet.first()` on an
unordered queryset implicitly orders by primary key **ascending**, so the call
returns the row with the smallest `id` — the oldest screening. -/

inductive LatestResponse where
  | ok (screening : ScreeningRow)
  | notFound (message : String)
deriving Repr, DecidableEq

def latest_http_status : LatestResponse → Nat
  | .ok _ => 200
  | .notFound _ => 404

/-- `QuerySet.first()` on an unordered queryset: smallest primary key. -/
def querysetFirstByPk (rows : List ScreeningRow) : Option ScreeningRow :=
  match rows with
  | [] => none
  | r :: rs => some (rs.foldl (fun best x => if x.id < best.id then x else best) r)

/-- `PHQ9ScreeningViewSet.latest` for a resolved patient. -/
def phq9_latest (st : Store) (patient : Nat) : LatestResponse :=
  match querysetFirstByPk (st.phq9_screenings.filter (fun r => r.patient == patient)) with
  | some latest_screening => .ok latest_screening
  | none => .notFound "No screenings found"

/-- `GAD7ScreeningViewSet.latest` for a resolved patient. -/
def gad7_latest (st : Store) (patient : Nat) : LatestResponse :=
  match querysetFirstByPk (st.gad7_screenings.filter (fun r => r.patient == patient)) with
  | some latest_screening => .ok latest_screening
  | none => .notFound "No screenings found"

/-- Store for the C6 scenario: patient 1 has two screenings of each type,
the newer one created later and with a different score. -/
def C6_store : Store :=
  { patients := [{ id := 1, user_id := 1, firebase_uid := "u" }],
    phq9_screenings :=
      [{ id := 1, patient := 1, total_score := 5, created_at := 0 },
       { id := 2, patient := 1, total_score := 20, created_at := 10 }],
    gad7_screenings :=
      [{ id := 1, patient := 1, total_score := 4, created_at := 0 },
       { id := 2, patient := 1, total_score := 18, created_at := 7 }],
    alerts := [], referrals := [], notifications := [] }

/-- C6: the `latest` endpoints return the **oldest** screening (smallest
primary key), not the one with the most recent creation time — the queryset
is unordered, so Django's `first()` sorts by `pk` ascending.  The empty case
does return the claimed 404 "No screenings found". -/
theorem C6_latest_returns_oldest :
    phq9_latest C6_store 1 = .ok { id := 1, patient := 1, total_score := 5, created_at := 0 } ∧
    orderByCreatedAtDescFirst (C6_store.phq9_screenings.filter (fun r => r.patient == 1)) =
      some { id := 2, patient := 1, total_score := 20, created_at := 10 } ∧
    ({ id := 1, patient := 1, total_score := 5, created_at := 0 } : ScreeningRow) ≠
      { id := 2, patient := 1, total_score := 20, created_at := 10 } ∧
    gad7_latest C6_store 1 = .ok { id := 1, patient := 1, total_score := 4, created_at := 0 } ∧
    phq9_latest { C6_store with phq9_screenings := [] } 1 = .notFound "No screenings found" ∧
    gad7_latest { C6_store with gad7_screenings := [] } 1 = .notFound "No screenings found" ∧
    latest_http_status (.notFound "No screenings found") = 404 :=
  ⟨rfl, rfl, by decide, rfl, rfl, rfl, rfl⟩

/-! ### Recommended self-care pathways (selfcare/views.py lines 36-66) -/

structure PathwayRow where
  id : Nat
  target_severity : String
  is_active : Bool
deriving Repr, DecidableEq

/-- The target-severity computation of `SelfCarePathwayViewSet.recommended`:
`patient.phq9_screenings.first()` / `patient.gad7_screenings.first()` are
unordered related-manager querysets, hence first-by-pk; the banded tier is
computed **only when both instruments have a screening**, else `"minimal"`. -/
def recommended_target_severity (st : Store) (patient : Nat) : String :=
  let latest_phq9 := querysetFirstByPk (st.phq9_screenings.filter (fun r => r.patient == patient))
  let latest_gad7 := querysetFirstByPk (st.gad7_screenings.filter (fun r => r.patient == patient))
  match latest_phq9, latest_gad7 with
  | some p, some g =>
      let max_score := max p.total_score g.total_score
      if 15 ≤ max_score then "severe"
      else if 10 ≤ max_score then "moderate"
      else if 5 ≤ max_score then "mild"
      else "minimal"
  | _, _ => "minimal"

/-- `SelfCarePathwayViewSet.recommended` for a resolved patient: the viewset
queryset keeps active pathways, then the action filters them by the computed
target severity. -/
def recommended_pathways (st : Store) (pathways : List PathwayRow) (patient : Nat) :
    List PathwayRow :=
  (pathways.filter (fun pw => pw.is_active)).filter
    (fun pw => pw.target_severity == recommended_target_severity st patient)

def C8_store : Store :=
  { patients := [{ id := 1, user_id := 1, firebase_uid := "u" }],
    phq9_screenings := [{ id := 1, patient := 1, total_score := 20, created_at := 0 }],
    gad7_screenings := [], alerts := [], referrals := [], notifications := [] }

def C8_pathways : List PathwayRow :=
  [{ id := 1, target_severity := "severe", is_active := true },
   { id := 2, target_severity := "minimal", is_active := true }]

/-- C8 counterexample: a patient whose only screening is a PHQ-9 with score
20 (and no GAD-7).  The claim's tier from the most recent scores is
`"severe"`, so the claim predicts exactly the severe pathway; the code
requires both instruments and falls back to `"minimal"`, returning the
minimal pathway instead. -/
theorem C8_counterexample :
    recommended_pathways C8_store C8_pathways 1 =
      [{ id := 2, target_severity := "minimal", is_active := true }] ∧
    recommended_pathways C8_store C8_pathways 1 ≠
      [{ id := 1, target_severity := "severe", is_active := true }] ∧
    C8_store.phq9_screenings.filter (fun r => r.patient == 1) =
      [{ id := 1, patient := 1, total_score := 20, created_at := 0 }] ∧
    (15 : Int) ≤ 20 :=
  ⟨rfl, by decide, rfl, by decide⟩

/-- C8 (amended): `recommended` returns exactly the active pathways whose
`target_severity` equals the tier computed from the patient's
**lowest-primary-key** (oldest) PHQ-9 and GAD-7 screenings when both
instruments have at least one screening; whenever either instrument has none
(in particular when the patient has no screenings at all) the tier is
`"minimal"`. -/
theorem C8_recommended_pathways (st : Store) (pathways : List PathwayRow) (patient : Nat) :
    (∀ pw, pw ∈ recommended_pathways st pathways patient ↔
        (pw ∈ pathways ∧ pw.is_active = true ∧
         pw.target_severity = recommended_target_severity st patient)) ∧
    ((st.phq9_screenings.filter (fun r => r.patient == patient) = [] ∨
      st.gad7_screenings.filter (fun r => r.patient == patient) = []) →
        recommended_target_severity st patient = "minimal") ∧
    (∀ p g, querysetFirstByPk (st.phq9_screenings.filter (fun r => r.patient == patient)) = some p →
        querysetFirstByPk (st.gad7_screenings.filter (fun r => r.patient == patient)) = some g →
        recommended_target_severity st patient =
          (if 15 ≤ max p.total_score g.total_score then "severe"
           else if 10 ≤ max p.total_score g.total_score then "moderate"
           else if 5 ≤ max p.total_score g.total_score then "mild"
           else "minimal")) := by
  refine ⟨?_, ?_, ?_⟩
  · intro pw
    simp only [recommended_pathways, List.mem_filter, beq_iff_eq, decide_eq_true_eq, and_assoc]
  · intro h
    rcases h with h | h <;>
      · rw [recommended_target_severity, h]
        cases hq : querysetFirstByPk (st.phq9_screenings.filter (fun r => r.patient == patient)) <;>
          cases hg : querysetFirstByPk (st.gad7_screenings.filter (fun r => r.patient == patient)) <;>
            simp_all [querysetFirstByPk]
  · intro p g hp hg
    rw [recommended_target_severity, hp, hg]

/-- C8 witness: at the counterexample store the amended characterization
instantiates to the minimal tier. -/
theorem C8_recommended_pathways_witness :
    ((C8_store.gad7_screenings.filter (fun r => r.patient == 1) = []) →
      recommended_target_severity C8_store 1 = "minimal") ∧
    recommended_target_severity C8_store 1 = "minimal" :=
  ⟨fun _ => (C8_recommended_pathways C8_store C8_pathways 1).2.1 (Or.inr rfl),
   (C8_recommended_pathways C8_store C8_pathways 1).2.1 (Or.inr rfl)⟩

/-! ### Clinician domain (clinician/views.py)

Every clinician-scoped list endpoint restricts its rows to patients with an
active `PatientAssignment` to the calling clinician:
`PatientAssignment.objects.filter(clinician=clinician, is_active=True)
.values_list('patient', flat=True)` followed by `filter(patient__in=...)`
(for alert responses the restriction goes through the referenced alert). -/

structure AssignmentRow where
  patient : Nat
  clinician : Nat
  is_active : Bool
deriving Repr, DecidableEq

structure TrendRow where
  id : Nat
  patient : Nat
  risk_level : String
deriving Repr, DecidableEq

structure TreatmentPlanRow where
  id : Nat
  patient : Nat
  diagnosis : String
deriving Repr, DecidableEq

structure ClinicalNoteRow where
  id : Nat
  patient : Nat
  content : String
deriving Repr, DecidableEq

structure AlertResponseRow where
  id : Nat
  alert : Nat
deriving Repr, DecidableEq

/-- The `values_list('patient', flat=True)` of the caller's active
assignments (clinician/views.py lines 122-125 and its clones). -/
def assigned_patients (assignments : List AssignmentRow) (clinician : Nat) : List Nat :=
  (assignments.filter (fun a => a.clinician == clinician && a.is_active)).map (fun a => a.patient)

/-- `PatientTrendViewSet.get_queryset` (clinician/views.py lines 121-126). -/
def patient_trend_queryset (assignments : List AssignmentRow) (trends : List TrendRow)
    (clinician : Nat) : List TrendRow :=
  trends.filter (fun t => (assigned_patients assignments clinician).contains t.patient)

/-- `TreatmentPlanViewSet.get_queryset` (clinician/views.py lines 174-179). -/
def treatment_plan_queryset (assignments : List AssignmentRow) (plans : List TreatmentPlanRow)
    (clinician : Nat) : List TreatmentPlanRow :=
  plans.filter (fun t => (assigned_patients assignments clinician).contains t.patient)

/-- `ClinicalNoteViewSet.get_queryset` (clinician/views.py lines 191-196). -/
def clinical_note_queryset (assignments : List AssignmentRow) (notes : List ClinicalNoteRow)
    (clinician : Nat) : List ClinicalNoteRow :=
  notes.filter (fun t => (assigned_patients assignments clinician).contains t.patient)

/-- `AlertResponseViewSet.get_queryset` (clinician/views.py lines 208-214):
alerts of assigned patients first, then responses whose alert is among them. -/
def alert_response_queryset (assignments : List AssignmentRow) (alerts : List AlertRow)
    (responses : List AlertResponseRow) (clinician : Nat) : List AlertResponseRow :=
  let alerts_assigned :=
    alerts.filter (fun al => (assigned_patients assignments clinician).contains al.patient)
  responses.filter (fun r => alerts_assigned.any (fun al => al.id == r.alert))

theorem mem_assigned_patients (assignments : List AssignmentRow) (clinician q : Nat) :
    q ∈ assigned_patients assignments clinician ↔
      ∃ a ∈ assignments, a.clinician = clinician ∧ a.is_active = true ∧ a.patient = q := by
  simp only [assigned_patients, List.mem_map, List.mem_filter, Bool.and_eq_true, beq_iff_eq]
  constructor
  · rintro ⟨a, ⟨ha, hc, hact⟩, hq⟩
    exact ⟨a, ha, hc, hact, hq⟩
  · rintro ⟨a, ha, hc, hact, hq⟩
    exact ⟨a, ⟨ha, hc, hact⟩, hq⟩

theorem filter_congr_of_imp {α : Type} (P Q : α → Bool) (hPQ : ∀ x, Q x = true → P x = true)
    {l₁ l₂ : List α} (h : l₁.filter P = l₂.filter P) : l₁.filter Q = l₂.filter Q := by
  have key : ∀ l : List α, l.filter Q = (l.filter P).filter Q := by
    intro l
    induction l with
    | nil => rfl
    | cons a t ih =>
        by_cases hQ : Q a = true
        · have hP := hPQ a hQ
          simp [List.filter_cons, hP, hQ, ih]
        · by_cases hP : P a = true <;>
            simp [List.filter_cons, hP, hQ, ih]
  rw [key l₁, key l₂, h]

/-- C4: clinician-scoped list results (patient trends, treatment plans,
clinical notes, alert responses) contain only rows of patients actively
assigned to the calling clinician, and are insensitive to any change in the
data of a patient without an active assignment (noninterference). -/
theorem C4_clinician_scope (assignments : List AssignmentRow) (c p : Nat)
    (hp : ∀ a ∈ assignments, a.clinician = c → a.is_active = true → a.patient ≠ p) :
    (∀ (trends : List TrendRow) (t : TrendRow), t ∈ patient_trend_queryset assignments trends c →
        ∃ a ∈ assignments, a.clinician = c ∧ a.is_active = true ∧ a.patient = t.patient) ∧
    (∀ trends₁ trends₂ : List TrendRow,
        trends₁.filter (fun t => !(t.patient == p)) = trends₂.filter (fun t => !(t.patient == p)) →
        patient_trend_queryset assignments trends₁ c = patient_trend_queryset assignments trends₂ c) ∧
    (∀ (plans : List TreatmentPlanRow) (t : TreatmentPlanRow),
        t ∈ treatment_plan_queryset assignments plans c →
        ∃ a ∈ assignments, a.clinician = c ∧ a.is_active = true ∧ a.patient = t.patient) ∧
    (∀ plans₁ plans₂ : List TreatmentPlanRow,
        plans₁.filter (fun t => !(t.patient == p)) = plans₂.filter (fun t => !(t.patient == p)) →
        treatment_plan_queryset assignments plans₁ c = treatment_plan_queryset assignments plans₂ c) ∧
    (∀ (notes : List ClinicalNoteRow) (t : ClinicalNoteRow),
        t ∈ clinical_note_queryset assignments notes c →
        ∃ a ∈ assignments, a.clinician = c ∧ a.is_active = true ∧ a.patient = t.patient) ∧
    (∀ notes₁ notes₂ : List ClinicalNoteRow,
        notes₁.filter (fun t => !(t.patient == p)) = notes₂.filter (fun t => !(t.patient == p)) →
        clinical_note_queryset assignments notes₁ c = clinical_note_queryset assignments notes₂ c) ∧
    (∀ (alerts : List AlertRow) (responses : List AlertResponseRow) (r : AlertResponseRow),
        r ∈ alert_response_queryset assignments alerts responses c →
        ∃ al ∈ alerts, al.id = r.alert ∧
          ∃ a ∈ assignments, a.clinician = c ∧ a.is_active = true ∧ a.patient = al.patient) ∧
    (∀ (alerts : List AlertRow) (responses₁ responses₂ : List AlertResponseRow),
        (alerts.map (fun al => al.id)).Nodup →
        responses₁.filter
            (fun r => !((alerts.filter (fun al => al.patient == p)).any (fun al => al.id == r.alert))) =
          responses₂.filter
            (fun r => !((alerts.filter (fun al => al.patient == p)).any (fun al => al.id == r.alert))) →
        alert_response_queryset assignments alerts responses₁ c =
          alert_response_queryset assignments alerts responses₂ c) := by
  have hactive : ∀ q, q ∈ assigned_patients assignments c → q ≠ p := by
    intro q hq
    rcases (mem_assigned_patients assignments c q).mp hq with ⟨a, ha, hc, hact, hpat⟩
    exact hpat ▸ hp a ha hc hact
  refine ⟨?_, ?_, ?_, ?_, ?_, ?_, ?_, ?_⟩
  · intro trends t ht
    have := (List.mem_filter.mp ht).2
    exact (mem_assigned_patients assignments c t.patient).mp (by simpa using this)
  · intro l₁ l₂ h
    exact filter_congr_of_imp _ _
      (fun t hQ => by
        simp only [Bool.not_eq_true', beq_eq_false_iff_ne]
        exact hactive t.patient (by simpa using hQ)) h
  · intro plans t ht
    have := (List.mem_filter.mp ht).2
    exact (mem_assigned_patients assignments c t.patient).mp (by simpa using this)
  · intro l₁ l₂ h
    exact filter_congr_of_imp _ _
      (fun t hQ => by
        simp only [Bool.not_eq_true', beq_eq_false_iff_ne]
        exact hactive t.patient (by simpa using hQ)) h
  · intro notes t ht
    have := (List.mem_filter.mp ht).2
    exact (mem_assigned_patients assignments c t.patient).mp (by simpa using this)
  · intro l₁ l₂ h
    exact filter_congr_of_imp _ _
      (fun t hQ => by
        simp only [Bool.not_eq_true', beq_eq_false_iff_ne]
        exact hactive t.patient (by simpa using hQ)) h
  · intro alerts responses r hr
    have hq := (List.mem_filter.mp hr).2
    rw [List.any_eq_true] at hq
    rcases hq with ⟨al, hal, hid⟩
    have hal' := List.mem_filter.mp hal
    refine ⟨al, hal'.1, by simpa using hid, ?_⟩
    exact (mem_assigned_patients assignments c al.patient).mp (by simpa using hal'.2)
  · intro alerts responses₁ responses₂ hnodup h
    refine filter_congr_of_imp _ _ ?_ h
    intro r hQ
    rw [List.any_eq_true] at hQ
    rcases hQ with ⟨al, hal, hid⟩
    have hal' := List.mem_filter.mp hal
    simp only [Bool.not_eq_true', List.any_eq_false]
    intro al2 hal2
    have hal2' := List.mem_filter.mp hal2
    by_contra hcon
    have heq : al = al2 :=
      List.inj_on_of_nodup_map hnodup hal'.1 hal2'.1
        (by rw [beq_iff_eq.mp hid, beq_iff_eq.mp hcon])
    have hne : al.patient ≠ p :=
      hactive al.patient (by simpa using hal'.2)
    rw [heq] at hne
    exact hne (beq_iff_eq.mp hal2'.2)

/-- Scenario for the C4 witness: clinician 10 actively assigned patient 1
only (patient 2's assignment is inactive, patient 3 belongs to clinician 11). -/
def C4_assignments : List AssignmentRow :=
  [{ patient := 1, clinician := 10, is_active := true },
   { patient := 2, clinician := 10, is_active := false },
   { patient := 3, clinician := 11, is_active := true }]

/-- C4 witness: changing unassigned patient 2's trend rows does not change
clinician 10's trend list. -/
theorem C4_clinician_scope_witness :
    patient_trend_queryset C4_assignments
        [{ id := 1, patient := 1, risk_level := "low" },
         { id := 2, patient := 2, risk_level := "critical" }] 10 =
      patient_trend_queryset C4_assignments
        [{ id := 1, patient := 1, risk_level := "low" },
         { id := 3, patient := 2, risk_level := "low" },
         { id := 4, patient := 2, risk_level := "high" }] 10 :=
  (C4_clinician_scope C4_assignments 10 2 (by decide)).2.1
    [{ id := 1, patient := 1, risk_level := "low" },
     { id := 2, patient := 2, risk_level := "critical" }]
    [{ id := 1, patient := 1, risk_level := "low" },
     { id := 3, patient := 2, risk_level := "low" },
     { id := 4, patient := 2, risk_level := "high" }] (by decide)

/-! ### String helpers

Python string primitives used by the NLP layer, implemented structurally over
the character list so that concrete inputs evaluate inside the kernel.  The
texts and keyword tables involved are ASCII, for which these agree with
Python's `str.lower`, substring test, `str.split()` and `str.strip()`. -/

/-- Python `str.lower()`. -/
def lowerStr (s : String) : String := ⟨s.data.map Char.toLower⟩

/-- Python `not text or not text.strip()`: true iff every character is
whitespace (in particular for the empty string). -/
def isBlank (s : String) : Bool := s.data.all Char.isWhitespace

/-- `needle in hay` on character lists. -/
def infixOf (needle : List Char) : List Char → Bool
  | [] => needle.isEmpty
  | c :: rest => needle.isPrefixOf (c :: rest) || infixOf needle rest

/-- Python `needle in hay` for strings. -/
def containsSub (hay needle : String) : Bool := infixOf needle.data hay.data

/-- A `\w` character of the regular expressions in `nlp_utils.py` (the
keywords and texts are ASCII). -/
def isWordChar (c : Char) : Bool := c.isAlphanum || c == '_'

/-- Accumulator-style Python `str.split()`: maximal runs of non-whitespace. -/
def splitWordsAux : List Char → List Char → List (List Char)
  | [], acc => if acc.isEmpty then [] else [acc.reverse]
  | c :: rest, acc =>
      if c.isWhitespace then
        if acc.isEmpty then splitWordsAux rest []
        else acc.reverse :: splitWordsAux rest []
      else splitWordsAux rest (c :: acc)

/-- `len(text.split())`. -/
def wordCount (s : String) : Nat := (splitWordsAux s.data []).length

/-! ### Emotion / risk detector (screening/nlp_utils.py)

`detect_emotions` counts whole-word keyword matches (`re.findall` with `\b`
anchors), scales a keyword's count when an intensity modifier immediately
precedes it, normalizes by the word count of the text, keeps the positive
categories and renormalizes them into a distribution.  Python floats are
embedded as exact rationals. -/

/-- Does `kw` match at the head of `text` with `\b` word boundaries on both
sides?  Every keyword starts and ends with a word character, so the left
boundary is exactly "the previous character is not a word character". -/
def boundaryMatchAt (kw : List Char) (text : List Char) (prevIsWord : Bool) : Bool :=
  !prevIsWord && kw.isPrefixOf text &&
    (match text.drop kw.length with
     | [] => true
     | c :: _ => !isWordChar c)

/-- `len(re.findall(r'\b<kw>\b', text))`: non-overlapping left-to-right scan.
After a match the scan resumes past the keyword, whose last character is a
word character, hence the `true` flag. -/
def countBoundaryMatches (kw : List Char) : List Char → Bool → Nat
  | [], _ => 0
  | c :: rest, prevIsWord =>
      if boundaryMatchAt kw (c :: rest) prevIsWord then
        1 + countBoundaryMatches kw (rest.drop (kw.length - 1)) true
      else
        countBoundaryMatches kw rest (isWordChar c)
termination_by text _ => text.length
decreasing_by
  · simp only [List.length_cons]
    have := List.length_drop (kw.length - 1) rest
    omega
  · simp only [List.length_cons]
    omega

/-- The `\s+<kw>\b` tail of the modifier pattern: at least one whitespace
character, then the keyword with a right word boundary.  Keywords start with
a non-whitespace character, so consuming the maximal whitespace run is the
only possible match of `\s+`. -/
def modifierTailMatch (kw : List Char) : List Char → Bool
  | [] => false
  | c :: rest =>
      c.isWhitespace &&
        (let after := (c :: rest).dropWhile Char.isWhitespace
         kw.isPrefixOf after &&
           (match after.drop kw.length with
            | [] => true
            | d :: _ => !isWordChar d))

/-- Does `\b<modifier>\s+<kw>\b` match at the head of `text`? -/
def modifierMatchAt (modifier kw : List Char) (text : List Char) (prevIsWord : Bool) : Bool :=
  !prevIsWord && modifier.isPrefixOf text && modifierTailMatch kw (text.drop modifier.length)

/-- `re.search(r'\b<modifier>\s+<kw>\b', text)` as a boolean. -/
def existsModifierMatch (modifier kw : List Char) : List Char → Bool → Bool
  | [], _ => false
  | c :: rest, prevIsWord =>
      modifierMatchAt modifier kw (c :: rest) prevIsWord ||
        existsModifierMatch modifier kw rest (isWordChar c)

/-- `EmotionDetector.EMOTION_KEYWORDS` (nlp_utils.py lines 16-23), in
dictionary order. -/
def EMOTION_KEYWORDS : List (String × List String) :=
  [("sad", ["sad", "depressed", "down", "unhappy", "miserable", "hopeless", "empty", "worthless"]),
   ("anxious", ["anxious", "worried", "nervous", "stressed", "panic", "fear", "afraid", "tense"]),
   ("angry", ["angry", "mad", "furious", "irritated", "annoyed", "frustrated", "rage"]),
   ("happy", ["happy", "joy", "excited", "pleased", "content", "glad", "cheerful", "good"]),
   ("neutral", ["okay", "fine", "alright", "normal", "average"]),
   ("suicidal", ["suicide", "kill myself", "end it all", "not worth living", "better off dead"])]

/-- `EmotionDetector.INTENSITY_MODIFIERS` (nlp_utils.py lines 26-34), in
dictionary order. -/
def INTENSITY_MODIFIERS : List (String × Rat) :=
  [("very", 3/2), ("extremely", 2), ("really", 13/10), ("quite", 6/5),
   ("slightly", 7/10), ("a bit", 4/5), ("somewhat", 9/10)]

/-- The inner loop of `detect_emotions` for one category: for each keyword,
count its whole-word matches; the `for ... else` over the modifiers adds
`matches * multiplier` for the first modifier whose pattern occurs (then
breaks), otherwise adds `matches`. -/
def emotionKeywordScore (text_lower : List Char) (keywords : List String) : Rat :=
  keywords.foldl
    (fun score keyword =>
      let match_count : Nat := countBoundaryMatches keyword.data text_lower false
      match INTENSITY_MODIFIERS.find?
          (fun m => existsModifierMatch m.1.data keyword.data text_lower false) with
      | some m => score + (match_count : Rat) * m.2
      | none => score + (match_count : Rat))
    0

/-- `EmotionDetector.detect_emotions` (nlp_utils.py lines 36-79), returning
the ordered association list of the surviving categories. -/
def detect_emotions (text : String) : List (String × Rat) :=
  if text == "" then []
  else
    let text_lower := (lowerStr text).data
    let denom : Rat := (max (wordCount text) 1 : Nat)
    let scored := EMOTION_KEYWORDS.map
      (fun ek => (ek.1, min (emotionKeywordScore text_lower ek.2 / denom) 1))
    let emotion_scores := scored.filter (fun es => decide (0 < es.2))
    let total_score := (emotion_scores.map (fun es => es.2)).sum
    if 0 < total_score then emotion_scores.map (fun es => (es.1, es.2 / total_score))
    else emotion_scores

/-- `emotions.get(name, 0)`. -/
def emotionScoreOf (scores : List (String × Rat)) (emotion : String) : Rat :=
  match scores.find? (fun es => es.1 == emotion) with
  | some es => es.2
  | none => 0

/-- `EmotionDetector.get_primary_emotion` (nlp_utils.py lines 81-96):
`max(items, key=score)` keeps the first maximum in iteration order. -/
def get_primary_emotion (text : String) : String × Rat :=
  match detect_emotions text with
  | [] => ("neutral", 1)
  | e :: rest => rest.foldl (fun best x => if best.2 < x.2 then x else best) e

/-- `EmotionDetector.detect_risk_keywords` (nlp_utils.py lines 98-126): each
category contributes its tag at most once (the inner loop breaks at the first
matching phrase), in the order suicidal-ideation then self-harm. -/
def detect_risk_keywords (text : String) : List String :=
  let text_lower := lowerStr text
  (if ["suicide", "kill myself", "end it all", "not worth living",
       "better off dead", "want to die", "no point"].any
      (fun keyword => containsSub text_lower keyword)
   then ["suicidal_ideation"] else []) ++
  (if ["hurt myself", "cut myself", "self harm", "harm myself"].any
      (fun keyword => containsSub text_lower keyword)
   then ["self_harm"] else [])

/-- `EmotionDetector.assess_risk_level` (nlp_utils.py lines 128-154). -/
def assess_risk_level (text : String) : String :=
  let risk_keywords := detect_risk_keywords text
  if !risk_keywords.isEmpty then "critical"
  else
    let emotions := detect_emotions text
    if 0 < emotionScoreOf emotions "suicidal" then "critical"
    else if 1/2 < emotionScoreOf emotions "sad" ∨ 1/2 < emotionScoreOf emotions "anxious" then
      "high"
    else if 1/5 < emotionScoreOf emotions "sad" ∨ 1/5 < emotionScoreOf emotions "anxious" then
      "medium"
    else "low"

/-! ### Intent recognizer (screening/intent_recognizer.py)

The trained scikit-learn pipeline (preprocessing, vectorizer, classifier and
its confidence fallback chain) is an external artifact; it is abstracted as an
`oracle` mapping the raw text to the predicted `(tag, confidence)` pair, with
internal prediction errors represented as the oracle returning
`("unknown", 0)` — exactly the instance method's degraded result. -/

def DEFAULT_CONFIDENCE_THRESHOLD : Rat := 3/5

/-- `IntentRecognizer.predict_intent` with `return_confidence=True`
(intent_recognizer.py lines 114-173): blank input short-circuits to
`("unknown", 0.0)` before the pipeline is consulted. -/
def instance_predict_intent (oracle : String → String × Rat) (text : String) : String × Rat :=
  if isBlank text then ("unknown", 0) else oracle text

/-- Module-level `predict_intent` (intent_recognizer.py lines 188-244):
`model_loaded = false` is the `FileNotFoundError` path of the singleton
construction, which returns `("unknown", 0.0)` without applying the
threshold; otherwise the instance result's tag is overridden to
`"out_of_scope"` whenever its confidence is below the threshold. -/
def module_predict_intent (model_loaded : Bool) (oracle : String → String × Rat)
    (confidence_threshold : Rat) (text : String) : String × Rat :=
  if !model_loaded then ("unknown", 0)
  else
    let result := instance_predict_intent oracle text
    if result.2 < confidence_threshold then ("out_of_scope", result.2) else result

/-- C9 (amended): blank input never invokes the model (the result is the same
for every oracle) and always carries confidence 0.0, but the module-level
wrapper's threshold check then fires on `0.0 < threshold`, so the returned
tag is `"out_of_scope"` for every positive threshold with a loaded model, and
`"unknown"` only when the model failed to load or the threshold is ≤ 0. -/
theorem C9_blank_input_module_predict (model_loaded : Bool)
    (oracle₁ oracle₂ : String → String × Rat) (confidence_threshold : Rat) (text : String)
    (h : isBlank text = true) :
    module_predict_intent model_loaded oracle₁ confidence_threshold text =
      module_predict_intent model_loaded oracle₂ confidence_threshold text ∧
    (module_predict_intent model_loaded oracle₁ confidence_threshold text).2 = 0 ∧
    (module_predict_intent model_loaded oracle₁ confidence_threshold text).1 =
      (if model_loaded = true ∧ 0 < confidence_threshold then "out_of_scope" else "unknown") := by
  simp only [module_predict_intent, instance_predict_intent, h, if_true]
  cases model_loaded <;> split_ifs <;> simp_all

/-- C9 witness: whitespace-only input, loaded model, threshold 1: confidence
is 0. -/
theorem C9_blank_input_module_predict_witness :
    (module_predict_intent true (fun _ => ("greeting", 1)) 1 "   ").2 = 0 :=
  (C9_blank_input_module_predict true (fun _ => ("greeting", 1))
    (fun _ => ("goodbye", 1)) 1 "   " (by decide)).2.1

/-- C9 counterexample: the claim says the module-level `predict_intent`
returns tag `"unknown"` at any threshold; with the model loaded and
threshold 1 a blank input yields `("out_of_scope", 0)`. -/
theorem C9_counterexample :
    module_predict_intent true (fun _ => ("greeting", 1)) 1 "" = ("out_of_scope", 0) ∧
    ("out_of_scope", (0 : Rat)) ≠ ("unknown", (0 : Rat)) := by
  exact ⟨by decide, by decide⟩

/-! ### Chatbot response generation (screening/views.py lines 494-663)

`ChatbotConversationViewSet._generate_bot_response`, with its fixed template
strings reproduced byte for byte (the source file's bullet and icon
characters are the literal sequences `‚Ä¢` and the like, and
are kept as such).  The intent classifier call is the module-level
`predict_intent` with the threshold lowered by `0.2`; `intent_raises` models
the `except` branch around it. -/

/-- The crisis safety template (views.py lines 500-508). -/
def crisis_response : String :=
  "I\x27m concerned about what you\x27re sharing. Your safety is important. " ++
  "Please reach out for immediate help:\n\n" ++
  "‚Ä¢ Crisis Hotline: 988 (available 24/7)\n" ++
  "‚Ä¢ Text HOME to: 741741\n" ++
  "‚Ä¢ Emergency: 911\n\n" ++
  "Would you like me to help you connect with a mental health professional? " ++
  "I\x27m here to support you."

def screening_nav_response : String :=
  "Great ‚Äî let\x27s get you to the screenings. We have PHQ-9 (depression) and GAD-7 (anxiety).\n\n" ++
  "You can start from the Screening section. Would you like me to take you there now?"

def self_care_nav_response : String :=
  "Self-care coming right up. We offer guided breathing, mindfulness, journaling and more.\n\n" ++
  "Open the Self-Care section and I can recommend something to match your current mood."

def dashboard_nav_response : String :=
  "Your dashboard shows trends, latest PHQ-9/GAD-7 results, and recommendations.\n\n" ++
  "Shall I open the Dashboard for you?"

def capability_menu_response : String :=
  "I\x27m focused on supporting your mental health journey. I can help you with:\n" ++
  "‚Ä¢ Screening tests (PHQ-9, GAD-7)\n" ++
  "‚Ä¢ Self-care exercises\n" ++
  "‚Ä¢ Your dashboard and progress\n\n" ++
  "Which would you like to open?"

def greeting_response_base : String :=
  "Hello! I\x27m here to support you. How are you feeling today? " ++
  "You can share what\x27s on your mind, or I can help you navigate the app."

def find_screening_response : String :=
  "I can help you take a screening test! We have:\n" ++
  "‚Ä¢ PHQ-9: For depression symptoms\n" ++
  "‚Ä¢ GAD-7: For anxiety symptoms\n\n" ++
  "These take just a few minutes and give you clear next steps.\n\n" ++
  "[Go to Screening]"

def find_self_care_response_base : String :=
  "Great! I can help you find self-care exercises. We have:\n" ++
  "‚Ä¢ Breathing exercises\n" ++
  "‚Ä¢ Mindfulness meditation\n" ++
  "‚Ä¢ Journaling prompts\n" ++
  "‚Ä¢ Stress management techniques\n\n"

def view_dashboard_response : String :=
  "Your dashboard shows your mental health journey, including:\n" ++
  "‚Ä¢ Your screening test results\n" ++
  "‚Ä¢ Progress over time\n" ++
  "‚Ä¢ Personalized recommendations\n\n" ++
  "[Open Dashboard]"

def need_help_response : String :=
  "I\x27m here to help! Here\x27s what I can assist you with:\n\n" ++
  "üîç **Screening Tests**: Take PHQ-9 or GAD-7 assessments\n" ++
  "üßò **Self-Care**: Access mindfulness, breathing, and wellness exercises\n" ++
  "üìä **Dashboard**: View your progress and test results\n" ++
  "üí¨ **Chat**: Talk about what\x27s on your mind\n\n" ++
  "What would you like to explore?"

def goodbye_response : String :=
  "Take care! Remember, I\x27m here whenever you need support. " ++
  "Don\x27t hesitate to come back if you need help with your mental health journey."

def thanks_response : String :=
  "You\x27re very welcome! I\x27m glad I could help. " ++
  "Feel free to reach out anytime you need support."

def sad_response_base : String :=
  "I understand you\x27re feeling down. It\x27s okay to feel this way. " ++
  "Would you like to talk about what\x27s making you feel sad? " ++
  "Sometimes sharing can help."

def anxious_response_base : String :=
  "I hear that you\x27re feeling anxious. That can be really challenging. "

def happy_response : String :=
  "I\x27m glad to hear you\x27re feeling positive! It\x27s great that you\x27re doing well. " ++
  "Is there anything specific you\x27d like to discuss or work on today?"

def short_generic_response : String :=
  "I\x27d like to understand better. Can you tell me more about what you\x27re experiencing? " ++
  "Or if you\x27re looking for something specific, I can help you with:\n" ++
  "‚Ä¢ Screening tests\n" ++
  "‚Ä¢ Self-care exercises\n" ++
  "‚Ä¢ Your dashboard"

def long_generic_response_base : String :=
  "I appreciate you sharing that. What would be most helpful for you right now?"

/-- The emotion-based fallback (views.py lines 613-663): reached when the
intent call raised or resolved to a tag with no dedicated handler. -/
def emotion_fallback_response (user_message : String) (message_lower : String)
    (emotion : String) (triage_recommendation : Option String) : String :=
  if emotion == "sad" then
    match triage_recommendation with
    | some rec => sad_response_base ++ " I\x27d also recommend trying: " ++ rec ++ "."
    | none => sad_response_base ++ " You might also consider trying one of our self-care exercises."
  else if emotion == "anxious" then
    (match triage_recommendation with
     | some rec => anxious_response_base ++ "I\x27d recommend trying: " ++ rec ++ ". "
     | none => anxious_response_base ++ "Would it help to try a breathing exercise together? ") ++
    "Or would you prefer to talk about what\x27s causing your anxiety?"
  else if emotion == "happy" then happy_response
  else
    match triage_recommendation with
    | some rec =>
        if ["help", "suggest", "recommend", "what should"].any
            (fun word => containsSub message_lower word) then
          "Based on your recent assessment, I\x27d recommend trying: " ++ rec ++
            ". This can help manage your symptoms. Would you like me to guide you through it?"
        else if user_message.length < 20 then short_generic_response
        else long_generic_response_base ++ " You might also find \x27" ++ rec ++ "\x27 helpful."
    | none =>
        if user_message.length < 20 then short_generic_response
        else long_generic_response_base

/-- The keyword router and per-intent templates of the try-block
(views.py lines 520-606); a tag without a handler falls through to the
emotion fallback, as the source's try-block ends without returning. -/
def intent_routed_response (intent_tag : String) (user_message : String)
    (message_lower : String) (emotion : String)
    (triage_recommendation : Option String) : String :=
  if intent_tag == "out_of_scope" then
    if ["screen", "phq", "gad", "assessment", "test"].any
        (fun k => containsSub message_lower k) then screening_nav_response
    else if ["self care", "self-care", "breath", "breathing", "meditation", "mindful",
             "exercise"].any (fun k => containsSub message_lower k) then self_care_nav_response
    else if ["dashboard", "progress", "results", "report"].any
        (fun k => containsSub message_lower k) then dashboard_nav_response
    else capability_menu_response
  else if intent_tag == "greeting" then
    match triage_recommendation with
    | some rec => greeting_response_base ++
        "\n\nBased on your recent assessment, I\x27d recommend trying: " ++ rec
    | none => greeting_response_base
  else if intent_tag == "find_screening" then find_screening_response
  else if intent_tag == "find_self_care" then
    find_self_care_response_base ++
      (match triage_recommendation with
       | some rec => "Based on your recent assessment, I\x27d especially recommend: " ++ rec ++ ".\n\n"
       | none => "") ++
    "[Open Self-Care]"
  else if intent_tag == "view_dashboard" then view_dashboard_response
  else if intent_tag == "need_help" then need_help_response
  else if intent_tag == "goodbye" then goodbye_response
  else if intent_tag == "thanks" then thanks_response
  else emotion_fallback_response user_message message_lower emotion triage_recommendation

/-- `ChatbotConversationViewSet._generate_bot_response` (views.py lines
494-663).  Priority 1 is the crisis branch; priority 2 classifies the message
with `predict_intent` at threshold `max(0, 0.6 - 0.2)` (`intent_raises`
models an exception inside the try-block); priority 3 is the emotion
fallback. -/
def generate_bot_response (model_loaded : Bool) (oracle : String → String × Rat)
    (intent_raises : Bool) (user_message : String) (emotion : String)
    (risk_level : String) (risk_keywords : List String)
    (triage_recommendation : Option String) : String :=
  let message_lower := lowerStr user_message
  if risk_level == "critical" || !risk_keywords.isEmpty then
    crisis_response
  else if intent_raises then
    emotion_fallback_response user_message message_lower emotion triage_recommendation
  else
    let intent_tag := (module_predict_intent model_loaded oracle
      (max 0 (DEFAULT_CONFIDENCE_THRESHOLD - 1/5)) user_message).1
    intent_routed_response intent_tag user_message message_lower emotion triage_recommendation

/-- C2: whenever the emotion detector classifies the message as critical risk
or finds any risk keyword, the bot reply is exactly the fixed crisis safety
template — whatever the intent model would say, whatever navigation keywords
the message contains, whatever emotion was detected, and whether or not a
triage recommendation is present. -/
theorem C2_crisis_has_priority (model_loaded : Bool) (oracle : String → String × Rat)
    (intent_raises : Bool) (user_message emotion : String)
    (triage_recommendation : Option String)
    (h : assess_risk_level user_message = "critical" ∨ detect_risk_keywords user_message ≠ []) :
    generate_bot_response model_loaded oracle intent_raises user_message emotion
      (assess_risk_level user_message) (detect_risk_keywords user_message)
      triage_recommendation = crisis_response := by
  have hb : (assess_risk_level user_message == "critical" ||
      !(detect_risk_keywords user_message).isEmpty) = true := by
    rcases h with h | h
    · simp [h]
    · cases hk : detect_risk_keywords user_message with
      | nil => exact absurd hk h
      | cons a t => simp
  simp only [generate_bot_response]
  rw [hb]
  simp

/-- C2 witness: a message that contains a suicidal-ideation phrase *and*
self-care navigation keywords; the reply is still the crisis template even
though the oracle classifies it as a self-care navigation intent. -/
theorem C2_crisis_has_priority_witness :
    generate_bot_response true (fun _ => ("find_self_care", 1)) false
      "I want to kill myself but please show me the self care breathing exercises" "sad"
      (assess_risk_level
        "I want to kill myself but please show me the self care breathing exercises")
      (detect_risk_keywords
        "I want to kill myself but please show me the self care breathing exercises")
      none = crisis_response :=
  C2_crisis_has_priority true (fun _ => ("find_self_care", 1)) false
    "I want to kill myself but please show me the self care breathing exercises" "sad" none
    (Or.inr (by decide))

end MindEase
